import Mathlib

/-!
Shallow embedding of the extraction-and-validation pipeline of
src/scripts/main.py (repository Adrxking/ai_crawlers).

The script fetches a page through the external crawl4ai service, then, inside
the function main (lines 88-119):
  - on a non-success crawl result it prints a scraping error with the
    diagnostic text of the service (line 119);
  - on success it parses result.extracted_content with json.loads (line 93),
    validates every parsed record through the pydantic model LeaderboardEntry
    with a list comprehension (line 94), prints a summary (lines 97-99),
    and writes the validated records to OUTPUT_FILE with json.dump, by alias,
    indent 2, ensure_ascii False, encoding utf-8 (lines 102-108);
  - json.JSONDecodeError is caught by a dedicated handler (lines 114-115);
    every other exception, the pydantic ValidationError included, is caught
    by the generic handler of lines 116-117.

External collaborators (crawl4ai, json.loads, json.dump, the pydantic
validation core) are modelled at the boundary of their observable behaviour;
the control flow, the schema, the field aliases, the message structure and
the file-write arguments are translated from the source.
-/

/-- A parsed JSON value, as returned by json.loads at line 93.  An integer
literal becomes a Python int (constructor int); any other numeric literal
becomes a Python float, modelled as the exact rational value of the decimal
literal (constructor num): the pipeline performs no arithmetic on scores, it
only stores and reserializes them, so the exact decimal reading is faithful.
An object keeps its key-value pairs in order; json.loads builds a Python
dict, whose lookup takes the last binding of a duplicated key, reproduced by
dictGet below. -/
inductive Json where
  | null : Json
  | bool (b : Bool) : Json
  | int (n : Int) : Json
  | num (q : Rat) : Json
  | str (s : String) : Json
  | arr (items : List Json) : Json
  | obj (fields : List (String × Json)) : Json

/-- The pydantic model of src/scripts/main.py lines 38-46: seven required
fields; arena_score carries the alias "arena score" and ci_95 the alias
"95% CI".  Python floats are modelled as exact rationals (see Json.num). -/
structure LeaderboardEntry where
  rank : Int
  model : String
  arena_score : Rat
  ci_95 : String
  votes : Int
  organization : String
  license : String

/-- Constant URL_TO_SCRAPE of line 27. -/
def URL_TO_SCRAPE : String := "https://web.lmarena.ai/leaderboard"

/-- Constant OUTPUT_FILE of line 33. -/
def OUTPUT_FILE : String := "leaderboard_data.json"

/-- Lookup in a parsed JSON object.  A Python dict keeps the last value bound
to a key, so the fold takes the last matching pair. -/
def dictGet (o : List (String × Json)) (k : String) : Option Json :=
  o.foldl (fun acc p => if p.1 = k then some p.2 else acc) none

/-- Digit-string value: some n when every character is a decimal digit. -/
def digitsVal (cs : List Char) : Option Nat :=
  cs.foldl
    (fun acc c =>
      match acc with
      | none => none
      | some n => if c.isDigit then some (n * 10 + (c.toNat - 48)) else none)
    (some 0)

/-- Nonempty digit-string value. -/
def digitsValNE (cs : List Char) : Option Nat :=
  if cs.isEmpty then none else digitsVal cs

/-- Integer value of a decimal string with an optional sign.  Models the lax
string-to-int coercion of the external pydantic core for the decimal forms
the script can meet; further lax forms (surrounding whitespace, underscores)
never arise in the claims and are not modelled. -/
def strInt (s : String) : Option Int :=
  match s.data with
  | [] => none
  | c :: cs =>
    if c = '-' then (digitsValNE cs).map fun n => -(n : Int)
    else if c = '+' then (digitsValNE cs).map fun n => (n : Int)
    else (digitsVal (c :: cs)).map fun n => (n : Int)

/-- Rational value of an unsigned decimal string, with an optional fraction
part after one dot. -/
def decimalVal (cs : List Char) : Option Rat :=
  match cs.splitOn '.' with
  | [w] => (digitsValNE w).map fun n => (n : Rat)
  | [w, f] =>
    match digitsValNE w, digitsValNE f with
    | some wn, some fn => some (mkRat (wn * 10 ^ f.length + fn) (10 ^ f.length))
    | _, _ => none
  | _ => none

/-- Rational value of a decimal string with an optional sign.  Models the lax
string-to-float coercion of the external pydantic core for plain decimal
forms; exponent forms never arise in the claims and are not modelled. -/
def strFloat (s : String) : Option Rat :=
  match s.data with
  | [] => none
  | c :: cs =>
    if c = '-' then (decimalVal cs).map fun q => -q
    else if c = '+' then decimalVal cs
    else decimalVal (c :: cs)

/-- Lax coercion of a JSON value to the int fields rank and votes, as the
external pydantic v2 core does in non-strict mode: an int passes through, a
float is accepted when it has no fractional part, a numeric string is parsed,
everything else (bool included) is rejected. -/
def coerceInt : Json → Option Int
  | .int n => some n
  | .num q => if q.den = 1 then some q.num else none
  | .str s => strInt s
  | _ => none

/-- Lax coercion of a JSON value to the float field arena_score: an int or a
float passes through, a numeric string is parsed, everything else (bool
included) is rejected. -/
def coerceFloat : Json → Option Rat
  | .int n => some (n : Rat)
  | .num q => some q
  | .str s => strFloat s
  | _ => none

/-- Coercion of a JSON value to a str field: pydantic v2 accepts only a
string, it never stringifies a number. -/
def coerceStr : Json → Option String
  | .str s => some s
  | _ => none

/-- One per-field validation failure inside a record, located by the lookup
key (the alias for the two aliased fields), as the external pydantic error
location does. -/
inductive FieldErr where
  | missing (key : String) : FieldErr
  | invalid (key : String) : FieldErr

/-- The exceptions the try block of lines 92-112 can raise while processing
data: json.JSONDecodeError from json.loads, pydantic.ValidationError from
the model constructor, TypeError from iterating a non-list or unpacking a
non-mapping. -/
inductive PyExc where
  | jsonDecodeError : PyExc
  | validationError (errs : List FieldErr) : PyExc
  | typeError : PyExc

/-- Text of one field error; models the per-error lines of the external
pydantic message. -/
def fieldErrText (fe : FieldErr) : String :=
  match fe with
  | .missing k => "Field required: " ++ k
  | .invalid k => "Input should be a valid value: " ++ k

/-- The human-readable text str(e) interpolated at line 117.  The exact
wording comes from the external libraries; the model keeps its structure
(which exception, which fields failed). -/
def excMessage (e : PyExc) : String :=
  match e with
  | .jsonDecodeError => "Expecting value"
  | .validationError errs =>
    "validation errors for LeaderboardEntry: " ++
      String.intercalate "; " (errs.map fieldErrText)
  | .typeError => "argument is not a mapping"

/-- Checks one field of the record: look the key up in the parsed object,
then coerce; a missing key or an impossible coercion is a field error. -/
def checkField (o : List (String × Json)) (key : String) (coerce : Json → Option α) :
    Except FieldErr α :=
  match dictGet o key with
  | none => .error (.missing key)
  | some v =>
    match coerce v with
    | none => .error (.invalid key)
    | some a => .ok a

/-- Errors contributed by one field check. -/
def errsOf (x : Except FieldErr α) : List FieldErr :=
  match x with
  | .error e => [e]
  | .ok _ => []

/-- Assembles the seven field results into an entry, or collects every field
error into one ValidationError, in field-declaration order, as the external
pydantic core does. -/
def assembleEntry (fr : Except FieldErr Int) (fm : Except FieldErr String)
    (fa : Except FieldErr Rat) (fc : Except FieldErr String)
    (fv : Except FieldErr Int) (fo : Except FieldErr String)
    (fl : Except FieldErr String) : Except PyExc LeaderboardEntry :=
  match fr, fm, fa, fc, fv, fo, fl with
  | .ok r, .ok m, .ok a, .ok c, .ok v, .ok og, .ok l => .ok ⟨r, m, a, c, v, og, l⟩
  | _, _, _, _, _, _, _ =>
    .error (.validationError
      (errsOf fr ++ errsOf fm ++ errsOf fa ++ errsOf fc ++
        errsOf fv ++ errsOf fo ++ errsOf fl))

/-- Validation of one parsed object against LeaderboardEntry (lines 38-46):
each field is looked up under its own name, except arena_score under its
alias "arena score" and ci_95 under its alias "95% CI" (populate_by_name is
not set, so only the alias is accepted for an aliased field, and field names
are case-sensitive).  Extra keys are ignored, the default pydantic config. -/
def validateObj (o : List (String × Json)) : Except PyExc LeaderboardEntry :=
  assembleEntry
    (checkField o "rank" coerceInt)
    (checkField o "model" coerceStr)
    (checkField o "arena score" coerceFloat)
    (checkField o "95% CI" coerceStr)
    (checkField o "votes" coerceInt)
    (checkField o "organization" coerceStr)
    (checkField o "license" coerceStr)

/-- The call LeaderboardEntry(**item) at line 94 for one item: a non-object
item raises TypeError (unpacking a non-mapping), an object is validated. -/
def validateEntry (j : Json) : Except PyExc LeaderboardEntry :=
  match j with
  | .obj o => validateObj o
  | _ => .error .typeError

/-- The list comprehension of line 94: items are validated left to right and
the first exception aborts the whole comprehension. -/
def validateAll : List Json → Except PyExc (List LeaderboardEntry)
  | [] => .ok []
  | j :: rest =>
    match validateEntry j with
    | .error e => .error e
    | .ok en =>
      match validateAll rest with
      | .error e => .error e
      | .ok ens => .ok (en :: ens)

/-- Line 94 applied to the whole parsed payload.  A list is validated
elementwise.  Iterating a nonempty dict yields its first key, a string,
whose unpacking raises TypeError; an empty dict iterates to nothing.
Iterating a string yields one-character strings with the same TypeError;
an empty string iterates to nothing.  Any other value is not iterable and
raises TypeError at the for loop itself. -/
def validateTop (j : Json) : Except PyExc (List LeaderboardEntry) :=
  match j with
  | .arr items => validateAll items
  | .obj [] => .ok []
  | .obj (_ :: _) => .error .typeError
  | .str s => if s = "" then .ok [] else .error .typeError
  | _ => .error .typeError

/-- The seven key-value pairs item.model_dump(by_alias=True) produces at
line 104: field-declaration order, alias names for the two aliased fields. -/
def entryFields (e : LeaderboardEntry) : List (String × Json) :=
  [ ("rank", .int e.rank), ("model", .str e.model),
    ("arena score", .num e.arena_score), ("95% CI", .str e.ci_95),
    ("votes", .int e.votes), ("organization", .str e.organization),
    ("license", .str e.license) ]

/-- The serialized form of one validated entry.  The score is a Python
float; its repr round-trips exactly through json.dump and json.loads, so the
model keeps the same rational on both sides. -/
def dumpEntry (e : LeaderboardEntry) : Json :=
  .obj (entryFields e)

/-- One console line printed by main.  Each constructor records one print
call of lines 97-119 with the interpolated values as arguments; the literal
Spanish text around them is fixed per call site, so the constructor
identifies the printed message. -/
inductive ConsoleLine where
  /-- Line 97: Datos extraidos exitosamente (count registros). -/
  | extractedOk (count : Nat) : ConsoleLine
  /-- Line 99, one of the first three entries: model (organization): score. -/
  | entrySummary (model : String) (organization : String) (score : Rat) : ConsoleLine
  /-- Line 109: Datos guardados en path. -/
  | savedTo (path : String) : ConsoleLine
  /-- Line 115: Error: Los datos extraidos no son JSON valido. -/
  | errorNotJson : ConsoleLine
  /-- Line 117: Error inesperado al procesar datos, followed by str(e). -/
  | errorUnexpected (cause : String) : ConsoleLine
  /-- Line 119: Error en el scraping, followed by result.error_message. -/
  | errorScraping (msg : String) : ConsoleLine

/-- Arguments of the one file write of lines 102-108: the open call fixes the
path and the encoding, json.dump receives the serialized value, indent=2 and
ensure_ascii=False (so non-ASCII characters are preserved, not escaped). -/
structure FileWrite where
  path : String
  content : Json
  indent : Nat
  ensure_ascii : Bool
  encoding : String

/-- The crawl result main receives at line 88: the success flag, the parse
outcome of extracted_content under json.loads (none models a
json.JSONDecodeError, the standard parser being external), and
error_message. -/
structure CrawlResult where
  success : Bool
  extracted : Option Json
  error_message : String

/-- Observable effects of one run: the console lines in print order and the
file writes.  The model assumes the write itself succeeds; an environment
failure there would reach the generic handler of lines 116-117 and is out of
scope of the claims. -/
structure RunOutput where
  console : List ConsoleLine
  writes : List FileWrite

/-- The body of main from line 88 on: the non-success branch prints the
scraping error; a parse failure prints the not-JSON error; a validation
exception reaches the generic handler, which prints the unexpected-error
message with str(e); on success the summary lines (count, then the first
three entries) are printed, the validated list is serialized by alias to
OUTPUT_FILE, and the saved-to line is printed.  Nothing is written on any
failure path, the file being opened only after validation succeeds. -/
def processResult (r : CrawlResult) : RunOutput :=
  match r.success, r.extracted with
  | true, none => { console := [.errorNotJson], writes := [] }
  | true, some raw =>
    match validateTop raw with
    | .error e => { console := [.errorUnexpected (excMessage e)], writes := [] }
    | .ok entries =>
      { console :=
          .extractedOk entries.length ::
            ((entries.take 3).map fun en =>
              .entrySummary en.model en.organization en.arena_score) ++
            [.savedTo OUTPUT_FILE]
      , writes :=
          [{ path := OUTPUT_FILE, content := .arr (entries.map dumpEntry),
             indent := 2, ensure_ascii := false, encoding := "utf-8" }] }
  | false, _ => { console := [.errorScraping r.error_message], writes := [] }

/-- Boolean success test for Except results. -/
def exceptIsOk (x : Except ε α) : Bool :=
  match x with
  | .ok _ => true
  | .error _ => false

/-- The list of the seven keys the validator reads: five field names plus
the two alias names. -/
def requiredKeys : List String :=
  ["rank", "model", "arena score", "95% CI", "votes", "organization", "license"]

/-- A well-formed raw record: the five plain field names plus the two alias
names, with the score 1300.5 (as the exact rational 2601/2). -/
def validRecordJson : Json :=
  .obj [ ("rank", .int 1), ("model", .str "X"), ("arena score", .num (mkRat 2601 2)),
    ("95% CI", .str "+2/-2"), ("votes", .int 500), ("organization", .str "Acme"),
    ("license", .str "MIT") ]

/-- The validated entry corresponding to validRecordJson. -/
def validEntry : LeaderboardEntry :=
  ⟨1, "X", mkRat 2601 2, "+2/-2", 500, "Acme", "MIT"⟩

/-- The raw record of the spec scenario for the single-record payload: the
keys Rank, Model and License are capitalized, exactly as INSTRUCTION_TO_LLM
(lines 28-32) asks the extraction service to produce them. -/
def capsRecordJson : Json :=
  .obj [ ("Rank", .int 1), ("Model", .str "X"), ("arena score", .num (mkRat 2601 2)),
    ("95% CI", .str "+2/-2"), ("votes", .int 500), ("organization", .str "Acme"),
    ("License", .str "MIT") ]

/-- The validation error an empty record produces: all seven fields missing,
in field-declaration order. -/
def emptyObjErr : PyExc :=
  .validationError
    [ .missing "rank", .missing "model", .missing "arena score", .missing "95% CI",
      .missing "votes", .missing "organization", .missing "license" ]

/-- A record exercising the lax coercions: rank and votes as decimal-digit
strings, the score as an integer. -/
def coercePayload : Json :=
  .arr [ .obj [ ("rank", .str "1"), ("model", .str "X"), ("arena score", .int 1300),
    ("95% CI", .str "+2/-2"), ("votes", .str "500"), ("organization", .str "Acme"),
    ("license", .str "MIT") ] ]

/-- A record whose rank cannot be coerced to an int. -/
def coerceBadPayload : Json :=
  .arr [ .obj [ ("rank", .str "x"), ("model", .str "X"), ("arena score", .int 1300),
    ("95% CI", .str "+2/-2"), ("votes", .int 500), ("organization", .str "Acme"),
    ("license", .str "MIT") ] ]

/-- An Except result is ok exactly when it is Except.ok of some value. -/
theorem exceptIsOk_iff (x : Except ε α) : exceptIsOk x = true ↔ ∃ a, x = Except.ok a := by
  cases x <;> simp [exceptIsOk]

/-- The list comprehension raises the exception of its first failing item:
whatever follows that item is never validated. -/
theorem validateAll_first_error : ∀ (pre : List Json) (bad : Json) (post : List Json)
    (e : PyExc),
    (∀ j ∈ pre, exceptIsOk (validateEntry j) = true) →
    validateEntry bad = Except.error e →
    validateAll (pre ++ bad :: post) = Except.error e := by
  intro pre
  induction pre with
  | nil =>
    intro bad post e _ hbad
    simp [validateAll, hbad]
  | cons j pre ih =>
    intro bad post e hpre hbad
    obtain ⟨en, hen⟩ := (exceptIsOk_iff (validateEntry j)).1 (hpre j (List.mem_cons_self j pre))
    have hrest := ih bad post e (fun q hq => hpre q (List.mem_cons_of_mem j hq)) hbad
    simp [validateAll, hen, hrest]

/-- A successful comprehension validates the items pointwise, in order. -/
theorem validateAll_forall2 : ∀ (items : List Json) (entries : List LeaderboardEntry),
    validateAll items = Except.ok entries →
    List.Forall₂ (fun j en => validateEntry j = Except.ok en) items entries := by
  intro items
  induction items with
  | nil =>
    intro entries h
    cases entries with
    | nil => exact List.Forall₂.nil
    | cons _ _ => simp [validateAll] at h
  | cons j items ih =>
    intro entries h
    cases hj : validateEntry j with
    | error e => simp [validateAll, hj] at h
    | ok en =>
      cases hrest : validateAll items with
      | error e => simp [validateAll, hj, hrest] at h
      | ok ens =>
        simp [validateAll, hj, hrest] at h
        subst h
        exact List.Forall₂.cons hj (ih ens hrest)

/-- Reading back the seven dumped key-value pairs of an entry restores the
entry. -/
theorem validateObj_entryFields (e : LeaderboardEntry) :
    validateObj (entryFields e) = Except.ok e := by
  cases e
  rfl

/-- Reading back a dumped entry restores the entry. -/
theorem validateEntry_dumpEntry (e : LeaderboardEntry) :
    validateEntry (dumpEntry e) = Except.ok e :=
  validateObj_entryFields e

/-- Folding the lookup step over pairs whose keys all differ from the key
leaves the accumulator unchanged. -/
theorem foldl_keep (k : String) : ∀ (ys : List (String × Json)) (acc : Option Json),
    (∀ p ∈ ys, p.1 ≠ k) →
    ys.foldl (fun acc p => if p.1 = k then some p.2 else acc) acc = acc := by
  intro ys
  induction ys with
  | nil => intro acc _; rfl
  | cons p ys ih =>
    intro acc h
    rw [List.foldl_cons, if_neg (h p (List.mem_cons_self p ys))]
    exact ih acc (fun q hq => h q (List.mem_cons_of_mem p hq))

/-- Appended pairs with other keys do not change a lookup. -/
theorem dictGet_append (xs ys : List (String × Json)) (k : String)
    (h : ∀ p ∈ ys, p.1 ≠ k) : dictGet (xs ++ ys) k = dictGet xs k := by
  unfold dictGet
  rw [List.foldl_append]
  exact foldl_keep k ys _ h

/-- Appended pairs with other keys do not change a field check. -/
theorem checkField_append (xs ys : List (String × Json)) (k : String)
    (c : Json → Option α) (h : ∀ p ∈ ys, p.1 ≠ k) :
    checkField (xs ++ ys) k c = checkField xs k c := by
  unfold checkField
  rw [dictGet_append xs ys k h]

/-- Appended pairs whose keys are outside the seven validated keys do not
change the validation of an object. -/
theorem validateObj_append (o extras : List (String × Json))
    (h : ∀ p ∈ extras, p.1 ∉ requiredKeys) :
    validateObj (o ++ extras) = validateObj o := by
  have hk : ∀ k ∈ requiredKeys, ∀ p ∈ extras, p.1 ≠ k := by
    intro k hkm p hp he
    exact h p hp (he ▸ hkm)
  unfold validateObj
  rw [checkField_append _ _ _ _ (hk "rank" (by decide)),
    checkField_append _ _ _ _ (hk "model" (by decide)),
    checkField_append _ _ _ _ (hk "arena score" (by decide)),
    checkField_append _ _ _ _ (hk "95% CI" (by decide)),
    checkField_append _ _ _ _ (hk "votes" (by decide)),
    checkField_append _ _ _ _ (hk "organization" (by decide)),
    checkField_append _ _ _ _ (hk "license" (by decide))]

/-- C1: all-or-nothing batch validation.  Decompose any parsed list with an
invalid record at the first record that fails (everything before it
validates, bad fails with exception e, anything may follow): the whole
comprehension raises exactly e, so the run writes nothing — no file is
created and a pre-existing file is untouched — produces zero output records,
and only the error line is printed.  The abort happens at the first invalid
record: the error is the one of bad, whatever post holds. -/
theorem claim_C1_all_or_nothing (pre post : List Json) (bad : Json) (m : String) (e : PyExc)
    (hpre : ∀ j ∈ pre, exceptIsOk (validateEntry j) = true)
    (hbad : validateEntry bad = Except.error e) :
    validateTop (Json.arr (pre ++ bad :: post)) = Except.error e
    ∧ (processResult ⟨true, some (Json.arr (pre ++ bad :: post)), m⟩).writes = []
    ∧ (processResult ⟨true, some (Json.arr (pre ++ bad :: post)), m⟩).console
        = [ConsoleLine.errorUnexpected (excMessage e)] := by
  have hv : validateTop (Json.arr (pre ++ bad :: post)) = Except.error e :=
    validateAll_first_error pre bad post e hpre hbad
  refine ⟨hv, ?_, ?_⟩ <;> simp [processResult, hv]

/-- Witness for C1 at the one-record payload whose record is the empty
object: it fails validation and the run writes nothing. -/
theorem claim_C1_all_or_nothing_witness :
    validateEntry (Json.obj []) = Except.error emptyObjErr
    ∧ (processResult ⟨true, some (Json.arr [Json.obj []]), ""⟩).writes = [] := by
  refine ⟨rfl, ?_⟩
  exact (claim_C1_all_or_nothing [] [] (Json.obj []) "" emptyObjErr (by simp) rfl).2.1

/-- C2 (code bug): the exact scenario payload of the spec, with the keys
Rank, Model and License capitalized as INSTRUCTION_TO_LLM itself requests
them, does not validate: the pydantic fields rank, model and license carry
no alias and field names are case-sensitive, so the three fields are
reported missing, nothing is written, and the generic unexpected-error line
is printed instead of the scenario output. -/
theorem claim_C2_capitalized_keys_rejected :
    validateTop (Json.arr [capsRecordJson])
      = Except.error (PyExc.validationError
          [FieldErr.missing "rank", FieldErr.missing "model", FieldErr.missing "license"])
    ∧ (processResult ⟨true, some (Json.arr [capsRecordJson]), ""⟩).writes = []
    ∧ (processResult ⟨true, some (Json.arr [capsRecordJson]), ""⟩).console
        = [ConsoleLine.errorUnexpected (excMessage (PyExc.validationError
            [FieldErr.missing "rank", FieldErr.missing "model", FieldErr.missing "license"]))] :=
  ⟨rfl, rfl, rfl⟩

/-- C3 counterexample: a record failing schema validation is NOT reported
through a distinct ValidationFailed kind — it is printed by the same generic
unexpected-error line (lines 116-117, constructor errorUnexpected) that
reports any other unexpected exception, such as the TypeError of a
non-mapping item.  Only the cause text inside the shared message differs. -/
theorem claim_C3_counterexample :
    (processResult ⟨true, some (Json.arr [Json.obj []]), ""⟩).console
      = [ConsoleLine.errorUnexpected (excMessage emptyObjErr)]
    ∧ (processResult ⟨true, some (Json.arr [Json.int 0]), ""⟩).console
      = [ConsoleLine.errorUnexpected (excMessage PyExc.typeError)] :=
  ⟨rfl, rfl⟩

/-- C3 amended: malformed payload, upstream extraction failure and
processing exceptions are reported by three pairwise distinct console
messages; a record failing schema validation is reported through the generic
unexpected-error message together with the text of its cause — distinct from
the malformed-payload and extraction-failure kinds, but not a separate
ValidationFailed kind. -/
theorem claim_C3_error_kinds_amended (items : List Json) (ex : Option Json) (m : String)
    (e : PyExc) (h : validateTop (Json.arr items) = Except.error e) :
    (processResult ⟨true, none, m⟩).console = [ConsoleLine.errorNotJson]
    ∧ (processResult ⟨false, ex, m⟩).console = [ConsoleLine.errorScraping m]
    ∧ (processResult ⟨true, some (Json.arr items), m⟩).console
        = [ConsoleLine.errorUnexpected (excMessage e)]
    ∧ ConsoleLine.errorNotJson ≠ ConsoleLine.errorScraping m
    ∧ ConsoleLine.errorNotJson ≠ ConsoleLine.errorUnexpected (excMessage e)
    ∧ ConsoleLine.errorScraping m ≠ ConsoleLine.errorUnexpected (excMessage e) := by
  refine ⟨rfl, rfl, by simp [processResult, h], ?_, ?_, ?_⟩
  all_goals intro hc; exact ConsoleLine.noConfusion hc

/-- Witness for the amended C3 at concrete inputs: the three reports as
printed for an empty-object record, a missing parse, and a failed crawl. -/
theorem claim_C3_error_kinds_amended_witness :
    validateTop (Json.arr [Json.obj []]) = Except.error emptyObjErr
    ∧ (processResult ⟨true, none, "x"⟩).console = [ConsoleLine.errorNotJson]
    ∧ (processResult ⟨false, none, "x"⟩).console = [ConsoleLine.errorScraping "x"]
    ∧ (processResult ⟨true, some (Json.arr [Json.obj []]), "x"⟩).console
        = [ConsoleLine.errorUnexpected (excMessage emptyObjErr)] := by
  have h := claim_C3_error_kinds_amended [Json.obj []] none "x" emptyObjErr rfl
  exact ⟨rfl, h.1, h.2.1, h.2.2.1⟩

/-- C4: when the extraction succeeded but the raw text is not valid JSON
(the parse outcome is none), the run prints exactly the malformed-payload
line and terminates with no file write; the validation step is never
reached, the parse failure short-circuiting to the handler of lines
114-115. -/
theorem claim_C4_malformed_payload (m : String) :
    processResult ⟨true, none, m⟩
      = { console := [ConsoleLine.errorNotJson], writes := [] } := rfl

/-- C5: when the extraction service reports non-success, the run prints
exactly one line carrying the diagnostic text of the service, performs no
parsing or validation and writes nothing; processResult is total, so the
process reaches its normal exit without an unhandled fault. -/
theorem claim_C5_extraction_failed (ex : Option Json) (m : String) :
    processResult ⟨false, ex, m⟩
      = { console := [ConsoleLine.errorScraping m], writes := [] } := rfl

/-- C6: on a payload of well-formed records the one write goes to
OUTPUT_FILE with indent 2, ensure_ascii false (non-ASCII preserved) and
encoding utf-8, and its content is the JSON array of the dumped entries:
as many objects as input records, validated pointwise in order (so record
order is preserved), each dumped with the alias keys of entryFields and
each satisfying the schema when read back. -/
theorem claim_C6_output_artifact (items : List Json) (m : String)
    (entries : List LeaderboardEntry)
    (h : validateTop (Json.arr items) = Except.ok entries) :
    (processResult ⟨true, some (Json.arr items), m⟩).writes
      = [{ path := OUTPUT_FILE, content := Json.arr (entries.map dumpEntry),
           indent := 2, ensure_ascii := false, encoding := "utf-8" }]
    ∧ (entries.map dumpEntry).length = items.length
    ∧ List.Forall₂ (fun j en => validateEntry j = Except.ok en) items entries
    ∧ (entries.map dumpEntry).all (fun o => exceptIsOk (validateEntry o)) = true := by
  have h2 := validateAll_forall2 items entries h
  refine ⟨by simp [processResult, h], ?_, h2, ?_⟩
  · rw [List.length_map]
    exact h2.length_eq.symm
  · rw [List.all_eq_true]
    intro o ho
    rw [List.mem_map] at ho
    obtain ⟨en, hen, rfl⟩ := ho
    rw [validateEntry_dumpEntry]
    rfl

/-- Witness for C6 at the one-record valid payload. -/
theorem claim_C6_output_artifact_witness :
    validateTop (Json.arr [validRecordJson]) = Except.ok [validEntry]
    ∧ (processResult ⟨true, some (Json.arr [validRecordJson]), ""⟩).writes
        = [{ path := OUTPUT_FILE, content := Json.arr [dumpEntry validEntry],
             indent := 2, ensure_ascii := false, encoding := "utf-8" }] := by
  refine ⟨rfl, ?_⟩
  exact (claim_C6_output_artifact [validRecordJson] "" [validEntry] rfl).1

/-- C7 round trip: dumping a validated record list by alias and re-parsing
it through the same validator restores the records field for field, and
re-dumping the re-parsed list reproduces the serialized form. -/
theorem claim_C7_roundtrip (es : List LeaderboardEntry) :
    validateTop (Json.arr (es.map dumpEntry)) = Except.ok es
    ∧ Except.map (fun l => Json.arr (l.map dumpEntry))
        (validateTop (Json.arr (es.map dumpEntry)))
      = Except.ok (Json.arr (es.map dumpEntry)) := by
  have h : validateAll (es.map dumpEntry) = Except.ok es := by
    induction es with
    | nil => rfl
    | cons e es ih => simp [validateAll, validateEntry_dumpEntry, ih]
  refine ⟨h, ?_⟩
  rw [show validateTop (Json.arr (es.map dumpEntry)) = Except.ok es from h]
  rfl

/-- C8: on success the console shows the total record count, then one line
with model, organization and score for exactly the first three records in
order (all records when fewer than three), then the saved-to line. -/
theorem claim_C8_console_summary (items : List Json) (m : String)
    (entries : List LeaderboardEntry)
    (h : validateTop (Json.arr items) = Except.ok entries) :
    (processResult ⟨true, some (Json.arr items), m⟩).console
      = ConsoleLine.extractedOk entries.length ::
          ((entries.take 3).map fun en =>
            ConsoleLine.entrySummary en.model en.organization en.arena_score) ++
          [ConsoleLine.savedTo OUTPUT_FILE] := by
  simp [processResult, h]

/-- Witness for C8 at a four-record payload: the count line says 4 and only
three entry lines follow. -/
theorem claim_C8_console_summary_witness :
    validateTop (Json.arr [validRecordJson, validRecordJson, validRecordJson, validRecordJson])
      = Except.ok [validEntry, validEntry, validEntry, validEntry]
    ∧ (processResult ⟨true,
        some (Json.arr [validRecordJson, validRecordJson, validRecordJson, validRecordJson]),
        ""⟩).console
      = [ConsoleLine.extractedOk 4,
         ConsoleLine.entrySummary "X" "Acme" (mkRat 2601 2),
         ConsoleLine.entrySummary "X" "Acme" (mkRat 2601 2),
         ConsoleLine.entrySummary "X" "Acme" (mkRat 2601 2),
         ConsoleLine.savedTo OUTPUT_FILE] := by
  refine ⟨rfl, ?_⟩
  exact claim_C8_console_summary
    [validRecordJson, validRecordJson, validRecordJson, validRecordJson] ""
    [validEntry, validEntry, validEntry, validEntry] rfl

/-- C9: a record carrying the seven required keys (score under its alias
"arena score", confidence interval under its alias "95% CI") plus any
extra keys validates to the same entry, the extras being silently ignored;
the persisted object is the dump of the entry, whose keys are exactly the
seven of requiredKeys and nothing else. -/
theorem claim_C9_extra_keys_ignored (e : LeaderboardEntry)
    (extras : List (String × Json)) (m : String)
    (h : ∀ p ∈ extras, p.1 ∉ requiredKeys) :
    validateEntry (Json.obj (entryFields e ++ extras)) = Except.ok e
    ∧ (processResult ⟨true, some (Json.arr [Json.obj (entryFields e ++ extras)]), m⟩).writes
        = [{ path := OUTPUT_FILE, content := Json.arr [dumpEntry e],
             indent := 2, ensure_ascii := false, encoding := "utf-8" }]
    ∧ (entryFields e).map Prod.fst = requiredKeys := by
  have h1 : validateEntry (Json.obj (entryFields e ++ extras)) = Except.ok e := by
    show validateObj (entryFields e ++ extras) = Except.ok e
    rw [validateObj_append _ _ h, validateObj_entryFields]
  have hv : validateTop (Json.arr [Json.obj (entryFields e ++ extras)]) = Except.ok [e] := by
    simp [validateTop, validateAll, h1]
  exact ⟨h1, by simp [processResult, hv], rfl⟩

/-- Witness for C9: one unknown extra key next to the seven required ones. -/
theorem claim_C9_extra_keys_ignored_witness :
    (∀ p ∈ ([("extra", Json.int 7)] : List (String × Json)), p.1 ∉ requiredKeys)
    ∧ validateEntry (Json.obj (entryFields validEntry ++ [("extra", Json.int 7)]))
        = Except.ok validEntry := by
  have hp : ∀ p ∈ ([("extra", Json.int 7)] : List (String × Json)), p.1 ∉ requiredKeys := by
    decide
  exact ⟨hp, (claim_C9_extra_keys_ignored validEntry [("extra", Json.int 7)] "" hp).1⟩

/-- C10: the typed fields coerce instead of rejecting convertible values —
any int becomes the equal float for arena_score, a decimal-digit string such
as "1" or "500" becomes the int for rank and votes, and a full record built
that way validates to the coerced entry; a value with no possible coercion,
such as the string "x" for rank, is rejected as invalid. -/
theorem claim_C10_lax_coercion (n : Int) :
    coerceFloat (Json.int n) = some ((n : Rat))
    ∧ coerceInt (Json.str "1") = some 1
    ∧ coerceInt (Json.str "500") = some 500
    ∧ coerceFloat (Json.int 1300) = some ((1300 : Rat))
    ∧ validateTop coercePayload
        = Except.ok [⟨1, "X", (1300 : Rat), "+2/-2", 500, "Acme", "MIT"⟩]
    ∧ coerceInt (Json.str "x") = none
    ∧ validateTop coerceBadPayload
        = Except.error (PyExc.validationError [FieldErr.invalid "rank"]) :=
  ⟨rfl, rfl, rfl, rfl, rfl, rfl, rfl⟩
